import Mathlib

/-!
Verification development for the doge-challenge regulatory tracker.

The repository consists of three TypeScript drafts:
  * `src/sync.ts`           — full-text historical sync (word counts, checksums,
                              3-attempt retry loop, two-tier dedup cache);
  * `src/unnamed/part_000`  — structural-metadata sync (byte sizes, UNIQUE
                              constraints on references and snapshots);
  * `src/server.tsx`        — read-only presentation layer; its second variant
                              contains the velocity calculator `getAgencyStats`.

This file gives a shallow embedding of those programs and proves or refutes
the frozen specification claims about them.  Dates are modelled as the number
of days since 1970-01-01: every date handled by the code is an ISO
`YYYY-MM-DD` string parsed by JavaScript at UTC midnight, so
`new Date(s).getTime()` is exactly `86400000 *` (epoch days), and the SQL
`ORDER BY snapshot_date` on such strings coincides with the numeric order of
epoch days.  JavaScript floating-point arithmetic is modelled with exact
rationals; all quantities involved are small integers and exact decimal
fractions (365.25, 0.01, 1/2), for which the double computations of the code
are exact as well.
-/

/-- Days since 1970-01-01 of the Gregorian date `y-m-d` (standard civil-days
computation).  Models `new Date("YYYY-MM-DD").getTime() / 86400000`. -/
def daysFromCivil (y m d : Int) : Int :=
  let y1 := if m ≤ 2 then y - 1 else y
  let era := (if 0 ≤ y1 then y1 else y1 - 399) / 400
  let yoe := y1 - era * 400
  let mp := (m + 9) % 12
  let doy := (153 * mp + 2) / 5 + d - 1
  let doe := yoe * 365 + yoe / 4 - yoe / 100 + doy
  era * 146097 + doe - 719468

/-- One 365.25-day year in milliseconds, as written in `getAgencyStats`:
`1000 * 60 * 60 * 24 * 365.25`. -/
def msPerYear : ℚ := 1000 * 60 * 60 * 24 * (365.25 : ℚ)

/-- JavaScript `Math.round`: round half toward positive infinity. -/
def jsRound (q : ℚ) : Int := ⌊q + 1 / 2⌋

/-- One aggregated point of an agency history, as produced by the SQL query in
`getAgencyStats` (`SELECT s.snapshot_date, SUM(s.word_count) as total_words …
GROUP BY s.snapshot_date ORDER BY s.snapshot_date DESC`). -/
structure HistPoint where
  snapshot_date : Int
  total_words : Int
  deriving DecidableEq

/-- The elapsed-years computation of `getAgencyStats`:
`Math.ceil(msDiff / (1000 * 60 * 60 * 24 * 365.25))` where
`msDiff = new Date(newest.snapshot_date).getTime() - new Date(oldest.snapshot_date).getTime()`. -/
def elapsedYears (newest oldest : HistPoint) : Int :=
  ⌈((newest.snapshot_date - oldest.snapshot_date : ℤ) : ℚ) * 86400000 / msPerYear⌉

/-- The record returned by `getAgencyStats`: `{ velocity, latest_count, history }`.
These are all the fields the calculator exposes. -/
structure AgencyStats where
  velocity : Int
  latest_count : Int
  history : List HistPoint
  deriving DecidableEq

/-- Shallow embedding of `getAgencyStats` from `src/server.tsx` (second
variant), taking the already-aggregated history (newest first, as the SQL
returns it): defaults `velocity = 0`, `latest_count = 0`; with at least one
point, `latest_count` is the newest total; with at least two points,
`years = Math.ceil(msDiff / msPerYear)` and
`velocity = years > 0.01 ? Math.round(diff / years) : 0`. -/
def getAgencyStats (history : List HistPoint) : AgencyStats :=
  match history with
  | [] => { velocity := 0, latest_count := 0, history := [] }
  | [p] => { velocity := 0, latest_count := p.total_words, history := [p] }
  | newest :: p :: ps =>
      let oldest := (p :: ps).getLast (List.cons_ne_nil p ps)
      let years := elapsedYears newest oldest
      let diff := newest.total_words - oldest.total_words
      let velocity := if (0.01 : ℚ) < (years : ℚ) then jsRound ((diff : ℚ) / (years : ℚ)) else 0
      { velocity := velocity, latest_count := newest.total_words, history := newest :: p :: ps }

/-- The velocity CSS class chosen by the dashboard in `src/server.tsx`:
`vel-bad` when `velocity > 100`, `vel-good` when `velocity < -100`, else
`vel-neutral` (the two sequential `if` statements of the source are mutually
exclusive, so the nested conditional is equivalent). -/
def velClass (v : Int) : String :=
  if 100 < v then "vel-bad" else if v < -100 then "vel-good" else "vel-neutral"

/-- The sparkline bar colour of `src/server.tsx`:
`row.velocity > 0 ? '#ff4444' : '#00cc00'`. -/
def sparkColor (v : Int) : String :=
  if 0 < v then "#ff4444" else "#00cc00"

/-- Modelled from the spec's words for claim C4 (no corresponding value exists
in the source): a trend direction that is `increasing` when the newest
aggregate metric exceeds the oldest, `decreasing` when it is smaller, and
`unchanged` when the difference is exactly zero. -/
def trendSpec (newest oldest : Int) : String :=
  if oldest < newest then "increasing"
  else if newest < oldest then "decreasing"
  else "unchanged"

/-- Modelled from claim C3's words: elapsed time in years as the fractional
difference between the newest and oldest dates based on a 365.25-day year,
with `velocity = round((newest.metric - oldest.metric) / years)` when `years`
exceeds the small positive threshold, else 0. -/
def velocityClaimFractional (history : List HistPoint) : Int :=
  match history with
  | [] => 0
  | [_] => 0
  | newest :: p :: ps =>
      let oldest := (p :: ps).getLast (List.cons_ne_nil p ps)
      let years : ℚ := ((newest.snapshot_date - oldest.snapshot_date : ℤ) : ℚ) * 86400000 / msPerYear
      if (0.01 : ℚ) < years then jsRound ((newest.total_words - oldest.total_words : ℤ) / years) else 0

/-- Claim C3 as amended: the code's elapsed years are the integer
`⌈msDiff / msPerYear⌉` (not a fractional value), and
`velocity = round(diff / years)` when that integer exceeds 0.01, else 0. -/
def velocityAmendedCeiling (history : List HistPoint) : Int :=
  match history with
  | [] => 0
  | [_] => 0
  | newest :: p :: ps =>
      let oldest := (p :: ps).getLast (List.cons_ne_nil p ps)
      let years := elapsedYears newest oldest
      if (0.01 : ℚ) < (years : ℚ) then jsRound ((newest.total_words - oldest.total_words : ℤ) / (years : ℚ)) else 0

/-- The spec's two-point example history:
`[{date: "2023-01-01", metric: 1100}, {date: "2022-01-01", metric: 1000}]`
(newest first, as the SQL returns it). -/
def twoPointHist : List HistPoint :=
  [{ snapshot_date := daysFromCivil 2023 1 1, total_words := 1100 },
   { snapshot_date := daysFromCivil 2022 1 1, total_words := 1000 }]

/-- A history spanning roughly one and a half years (2022-01-01 to 2023-07-01),
on which fractional years (≈ 1.495) and the code's ceiling (2) give different
velocities. -/
def stretchedHist : List HistPoint :=
  [{ snapshot_date := daysFromCivil 2023 7 1, total_words := 2000 },
   { snapshot_date := daysFromCivil 2022 1 1, total_words := 1000 }]

/-- A strictly increasing history (2022-01-01: 1000 → 2024-12-31: 1001) whose
rounded velocity is 0, so every velocity-derived display signal is neutral or
green although the series increases. -/
def creepHist : List HistPoint :=
  [{ snapshot_date := daysFromCivil 2024 12 31, total_words := 1001 },
   { snapshot_date := daysFromCivil 2022 1 1, total_words := 1000 }]

namespace SyncTs

/-- One CFR reference of the upstream agency directory feed. -/
structure CfrRef where
  title : Int
  chapter : String
  deriving DecidableEq

/-- One agency of the upstream directory feed (`agencies.json`).  `short_name`
is optional because the code falls back with `agency.short_name || agency.name`. -/
structure AgencyFeed where
  slug : String
  name : String
  short_name : Option String
  cfr_references : List CfrRef
  deriving DecidableEq

/-- JavaScript `a.short_name || a.name`: an absent or empty string is falsy. -/
def jsOr (o : Option String) (dflt : String) : String :=
  match o with
  | none => dflt
  | some s => if s = "" then dflt else s

/-- Row of the `agencies` table of src/sync.ts (`slug` is the primary key;
`primary_title` is declared in the schema but never written). -/
structure AgencyRow where
  slug : String
  name : String
  short_name : String
  latest_word_count : Option Int
  latest_checksum : Option String
  primary_title : Option Int
  last_updated_date : Option Int
  deriving DecidableEq

/-- Row of the `snapshots` table of src/sync.ts.  The schema has an
autoincrement `id` (modelled by list position) and no uniqueness constraint on
`(title, snapshot_date)`. -/
structure SnapshotRow where
  title : Int
  snapshot_date : Int
  word_count : Int
  checksum : String
  deriving DecidableEq

/-- Row of the `agency_references` table of src/sync.ts.  The schema has an
autoincrement `id`, a foreign key on `agency_slug`, and no uniqueness
constraint. -/
structure RefRow where
  agency_slug : String
  title_number : Int
  chapter : String
  deriving DecidableEq

/-- The persistent store of src/sync.ts (`ecfr.sqlite`). -/
structure Db where
  agencies : List AgencyRow
  agency_references : List RefRow
  snapshots : List SnapshotRow
  deriving DecidableEq

def emptyDb : Db := { agencies := [], agency_references := [], snapshots := [] }

/-- Outcome of one invocation of the Fetcher for a (title, date) pair:
an HTTP 200 body, or a failure (non-2xx status or a network error — both
reach the same `catch`). -/
inductive FetchOutcome where
  | ok (body : String)
  | fail
  deriving DecidableEq

/-- Inputs of one run of src/sync.ts: the agency directory feed (`none` models
an unreachable or unparseable feed, whose rejection propagates uncaught), the
configured snapshot dates, today's date, the fingerprint function (SHA-256 is
not modelled; no claim depends on the digest values), and the per-invocation
Fetcher outcome, indexed by the number of fetches already performed. -/
structure SyncConfig where
  feed : Option (List AgencyFeed)
  dates : List Int
  todaysDate : Int
  getChecksum : String → String
  oracle : Nat → FetchOutcome

def AGENCY_LIMIT : Nat := 5

/-- State of one run: the store, the in-run memory set `processedSnapshots`
(keyed by the (title, date) cache key, which is injective for the fixed-format
keys `title-date` the code builds), and the log of Fetcher invocations. -/
structure RunState where
  db : Db
  processedSnapshots : List (Int × Int)
  fetchLog : List (Int × Int)
  deriving DecidableEq

/-- JavaScript whitespace as met by `cleanText` (the corpus is ASCII; the
unicode spaces also matched by `\s` never occur). -/
def isJsSpace (c : Char) : Bool :=
  c = ' ' || c = '\t' || c = '\n' || c = '\r' || c = '\x0b' || c = '\x0c'

/-- Helper for `stripTags`: drop characters up to and including the next `>`. -/
def skipTag : List Char → List Char
  | [] => []
  | c :: cs => if c = '>' then cs else skipTag cs

/-- The replacement `/<[^>]*>/g → " "` of `cleanText`, with explicit fuel to
keep the recursion structural: each block from a `<` to the next `>` becomes
one space; a `<` with no later `>` matches nothing and is kept verbatim.
Every step consumes at least one character, so fuel equal to the length of the
input (as supplied by `stripTags`) never runs out. -/
def stripTagsAux : Nat → List Char → List Char
  | _, [] => []
  | 0, l => l
  | Nat.succ n, c :: cs =>
      if c = '<' && cs.contains '>' then ' ' :: stripTagsAux n (skipTag cs)
      else c :: stripTagsAux n cs

def stripTags (l : List Char) : List Char := stripTagsAux l.length l

/-- The replacement `/\s+/g → " "` of `cleanText`, in one left-to-right pass;
the flag records whether the previous character belonged to a whitespace run. -/
def collapseWsAux : Bool → List Char → List Char
  | _, [] => []
  | prevWs, c :: cs =>
      if isJsSpace c then
        if prevWs then collapseWsAux true cs
        else ' ' :: collapseWsAux true cs
      else c :: collapseWsAux false cs

/-- JavaScript `String.prototype.trim`. -/
def trimChars (l : List Char) : List Char :=
  ((l.dropWhile isJsSpace).reverse.dropWhile isJsSpace).reverse

/-- `cleanText` from src/sync.ts:
`xml.replace(/<[^>]*>/g, " ").replace(/\s+/g, " ").trim()`. -/
def cleanText (xml : String) : String :=
  String.mk (trimChars (collapseWsAux false (stripTags xml.data)))

/-- JavaScript `s.split(" ")` (split on every single space; adjacent
separators and an empty input yield empty tokens, so the result is never
empty — in particular `"".split(" ")` is `[""]`). -/
def jsSplitSpace : List Char → List (List Char)
  | [] => [[]]
  | c :: cs =>
      match jsSplitSpace cs with
      | [] => [[]]
      | w :: ws => if c = ' ' then [] :: w :: ws else (c :: w) :: ws

/-- `INSERT INTO agencies (slug, name, short_name) VALUES … ON CONFLICT(slug)
DO UPDATE SET name = …`: insert a fresh row, or update only `name` on an
existing slug. -/
def upsertAgency (db : Db) (a : AgencyFeed) : Db :=
  if db.agencies.any (fun row => row.slug = a.slug) then
    { db with agencies := db.agencies.map (fun row =>
        if row.slug = a.slug then { row with name := a.name } else row) }
  else
    { db with agencies := db.agencies ++
        [{ slug := a.slug, name := a.name, short_name := jsOr a.short_name a.name,
           latest_word_count := none, latest_checksum := none,
           primary_title := none, last_updated_date := none }] }

/-- `INSERT OR IGNORE INTO agency_references …`: the table declares no
uniqueness constraint and its `id` autoincrements, so `OR IGNORE` never fires
and the insert always appends a row. -/
def insertRefOrIgnore (db : Db) (slug : String) (title : Int) (chapter : String) : Db :=
  { db with agency_references := db.agency_references ++
      [{ agency_slug := slug, title_number := title, chapter := chapter }] }

/-- `SELECT id FROM snapshots WHERE title = … AND snapshot_date = …` has a
non-empty result. -/
def snapExists (db : Db) (title date : Int) : Bool :=
  db.snapshots.any (fun s => s.title = title && s.snapshot_date = date)

/-- `INSERT INTO snapshots …` (no constraint can reject it). -/
def insertSnapshot (db : Db) (row : SnapshotRow) : Db :=
  { db with snapshots := db.snapshots ++ [row] }

/-- `UPDATE agencies SET latest_word_count = …, latest_checksum = …,
last_updated_date = … WHERE slug = …`. -/
def updateAgencyLatest (db : Db) (slug : String) (wc : Int) (checksum : String)
    (today : Int) : Db :=
  { db with agencies := db.agencies.map (fun row =>
      if row.slug = slug then
        { row with latest_word_count := some wc, latest_checksum := some checksum,
                   last_updated_date := some today }
      else row) }

/-- One iteration of the `while (tries < 3 && !success)` body: invoke the
Fetcher (logged); on failure return unchanged state (the code only logs and
sleeps); on success clean the text, count words with `split(" ").length`,
fingerprint, insert the snapshot, refresh the agency's denormalised latest
fields when the date is `SNAPSHOT_DATES[0]`, and mark the memory cache. -/
def attemptOnce (cfg : SyncConfig) (st : RunState) (slug : String) (title date : Int) :
    RunState × Bool :=
  let outcome := cfg.oracle st.fetchLog.length
  let st1 : RunState := { st with fetchLog := st.fetchLog ++ [(title, date)] }
  match outcome with
  | .fail => (st1, false)
  | .ok xml =>
      let text := cleanText xml
      let wordCount : Int := ((jsSplitSpace text.data).length : Int)
      let checksum := cfg.getChecksum text
      let db1 := insertSnapshot st1.db
        { title := title, snapshot_date := date, word_count := wordCount, checksum := checksum }
      let db2 := if cfg.dates.head? = some date then
          updateAgencyLatest db1 slug wordCount checksum cfg.todaysDate
        else db1
      let st2 : RunState :=
        { st1 with db := db2, processedSnapshots := st1.processedSnapshots ++ [(title, date)] }
      (st2, true)

/-- The retry loop `while (tries < 3 && !success)`, with `fuel` remaining
attempts. -/
def retryLoop (cfg : SyncConfig) (slug : String) (title date : Int) :
    Nat → RunState → RunState
  | 0, st => st
  | Nat.succ n, st =>
      let r := attemptOnce cfg st slug title date
      if r.2 then r.1 else retryLoop cfg slug title date n r.1

/-- Processing of one (title, date) pair: memory-cache check, then persistent
existence check (marking the memory cache on a hit), then up to 3 fetch
attempts. -/
def processDate (cfg : SyncConfig) (st : RunState) (slug : String) (title date : Int) :
    RunState :=
  if (title, date) ∈ st.processedSnapshots then st
  else if snapExists st.db title date then
    { st with processedSnapshots := st.processedSnapshots ++ [(title, date)] }
  else retryLoop cfg slug title date 3 st

/-- Processing of one CFR reference: insert the reference row, then process
every configured snapshot date. -/
def processRef (cfg : SyncConfig) (st : RunState) (slug : String) (r : CfrRef) : RunState :=
  let st1 := { st with db := insertRefOrIgnore st.db slug r.title r.chapter }
  cfg.dates.foldl (fun s date => processDate cfg s slug r.title date) st1

/-- Processing of one agency: upsert the agency row, then process each of its
references. -/
def processAgency (cfg : SyncConfig) (st : RunState) (a : AgencyFeed) : RunState :=
  let st1 := { st with db := upsertAgency st.db a }
  a.cfr_references.foldl (fun s r => processRef cfg s a.slug r) st1

/-- `runSync` from src/sync.ts: fetch the directory feed (an unreachable or
unparseable feed rejects, and nothing catches the rejection), keep the
agencies with at least one CFR reference, take `slice(3, AGENCY_LIMIT + 3)` of
them, and process each with a fresh in-run memory cache. -/
def runSync (cfg : SyncConfig) (db : Db) : Except Unit RunState :=
  match cfg.feed with
  | none => .error ()
  | some feedAgencies =>
      let agencies := ((feedAgencies.filter
        (fun a => !a.cfr_references.isEmpty)).drop 3).take AGENCY_LIMIT
      .ok (agencies.foldl (fun s a => processAgency cfg s a)
        { db := db, processedSnapshots := [], fetchLog := [] })

/-- The store and fetch log left by one run (a run that dies on the feed fetch
leaves the store untouched and has performed no fetch). -/
def runOnce (cfg : SyncConfig) (db : Db) : Db × List (Int × Int) :=
  match runSync cfg db with
  | .error _ => (db, [])
  | .ok st => (st.db, st.fetchLog)

/-- Iterated runs, each with its own feed and fetch outcomes. -/
def runMany (cfgs : List SyncConfig) (db : Db) : Db :=
  cfgs.foldl (fun d cfg => (runOnce cfg d).1) db

/-- Claim C1's invariant for src/sync.ts: all stored snapshots have pairwise
distinct (title, snapshot_date) keys. -/
def SnapUnique (db : Db) : Prop :=
  db.snapshots.Pairwise (fun a b => ¬(a.title = b.title ∧ a.snapshot_date = b.snapshot_date))

end SyncTs

namespace Golden

/-- Row of the `agencies` table of src/unnamed/part_000. -/
structure AgencyRow where
  slug : String
  name : String
  short_name : String
  last_updated_date : Int
  deriving DecidableEq

/-- Row of the `agency_references` table of src/unnamed/part_000, which
declares `UNIQUE(agency_slug, title_number)`. -/
structure RefRow where
  agency_slug : String
  title_number : Int
  chapter : String
  deriving DecidableEq

/-- Row of the `snapshots` table of src/unnamed/part_000, which declares
`UNIQUE(title_number, snapshot_date)`. -/
structure SnapshotRow where
  title_number : Int
  snapshot_date : Int
  byte_size : Int
  deriving DecidableEq

/-- The persistent store of src/unnamed/part_000. -/
structure Db where
  agencies : List AgencyRow
  agency_references : List RefRow
  snapshots : List SnapshotRow
  deriving DecidableEq

def emptyDb : Db := { agencies := [], agency_references := [], snapshots := [] }

/-- Outcome of the single structure-JSON fetch of part_000 for a pair:
a thrown network error (caught), a non-2xx response (silently ignored), an
empty body (`continue`, skipping even the memory-cache mark), an unparseable
body (`JSON.parse` throws, caught), or a parsed structure whose
`structure.size || 0` is `size`. -/
inductive FetchOutcome where
  | netError
  | notOk
  | emptyBody
  | malformed
  | payload (size : Int)
  deriving DecidableEq

/-- Inputs of one run of src/unnamed/part_000. -/
structure SyncConfig where
  feed : Option (List SyncTs.AgencyFeed)
  dates : List Int
  oracle : Nat → FetchOutcome

/-- State of one run of part_000: the store, the in-run `checkedSnapshots`
set, and the log of fetch invocations. -/
structure RunState where
  db : Db
  checked : List (Int × Int)
  fetchLog : List (Int × Int)
  deriving DecidableEq

/-- `INSERT INTO agencies … ON CONFLICT(slug) DO UPDATE SET
last_updated_date = SNAPSHOT_DATES[0]` (part_000 writes the first configured
date into `last_updated_date` both on insert and on conflict). -/
def upsertAgency (db : Db) (a : SyncTs.AgencyFeed) (firstDate : Int) : Db :=
  if db.agencies.any (fun row => row.slug = a.slug) then
    { db with agencies := db.agencies.map (fun row =>
        if row.slug = a.slug then { row with last_updated_date := firstDate } else row) }
  else
    { db with agencies := db.agencies ++
        [{ slug := a.slug, name := a.name, short_name := SyncTs.jsOr a.short_name a.name,
           last_updated_date := firstDate }] }

/-- `INSERT OR IGNORE INTO agency_references VALUES …` against
`UNIQUE(agency_slug, title_number)`: a duplicate (slug, title) is ignored. -/
def insertRefOrIgnore (db : Db) (slug : String) (title : Int) (chapter : String) : Db :=
  if db.agency_references.any
      (fun r => r.agency_slug = slug && r.title_number = title) then db
  else
    { db with agency_references := db.agency_references ++
        [{ agency_slug := slug, title_number := title, chapter := chapter }] }

/-- `SELECT id FROM snapshots WHERE title_number=… AND snapshot_date=…` has a
non-empty result. -/
def snapExists (db : Db) (title date : Int) : Bool :=
  db.snapshots.any (fun s => s.title_number = title && s.snapshot_date = date)

/-- `INSERT INTO snapshots (title_number, snapshot_date, byte_size) VALUES …`
against `UNIQUE(title_number, snapshot_date)`: a violating insert throws, the
surrounding `catch` swallows it, and the table is unchanged. -/
def insertSnapshot (db : Db) (row : SnapshotRow) : Db :=
  if snapExists db row.title_number row.snapshot_date then db
  else { db with snapshots := db.snapshots ++ [row] }

/-- Processing of one (title, date) pair in part_000: memory-cache check, then
persistent check, then a single fetch; every outcome except an empty body
marks the memory cache, and only a parsed size > 0 is persisted. -/
def processDate (cfg : SyncConfig) (st : RunState) (title date : Int) : RunState :=
  if (title, date) ∈ st.checked then st
  else if snapExists st.db title date then
    { st with checked := st.checked ++ [(title, date)] }
  else
    let outcome := cfg.oracle st.fetchLog.length
    let st1 : RunState := { st with fetchLog := st.fetchLog ++ [(title, date)] }
    match outcome with
    | .netError => { st1 with checked := st1.checked ++ [(title, date)] }
    | .notOk => { st1 with checked := st1.checked ++ [(title, date)] }
    | .emptyBody => st1
    | .malformed => { st1 with checked := st1.checked ++ [(title, date)] }
    | .payload size =>
        if 0 < size then
          { st1 with
            db := insertSnapshot st1.db
              { title_number := title, snapshot_date := date, byte_size := size },
            checked := st1.checked ++ [(title, date)] }
        else { st1 with checked := st1.checked ++ [(title, date)] }

/-- Processing of one CFR reference in part_000. -/
def processRef (cfg : SyncConfig) (st : RunState) (slug : String) (r : SyncTs.CfrRef) :
    RunState :=
  let st1 := { st with db := insertRefOrIgnore st.db slug r.title r.chapter }
  cfg.dates.foldl (fun s date => processDate cfg s r.title date) st1

/-- Processing of one agency in part_000. -/
def processAgency (cfg : SyncConfig) (st : RunState) (a : SyncTs.AgencyFeed) : RunState :=
  let st1 := { st with db := upsertAgency st.db a cfg.dates.headI }
  a.cfr_references.foldl (fun s r => processRef cfg s a.slug r) st1

/-- `runSync` from src/unnamed/part_000: fetch the directory feed (uncaught
rejection when unreachable), keep agencies with at least one reference (no
slice limit here), and process each. -/
def runSync (cfg : SyncConfig) (db : Db) : Except Unit RunState :=
  match cfg.feed with
  | none => .error ()
  | some feedAgencies =>
      let agencies := feedAgencies.filter (fun a => !a.cfr_references.isEmpty)
      .ok (agencies.foldl (fun s a => processAgency cfg s a)
        { db := db, checked := [], fetchLog := [] })

/-- The store left by one run of part_000. -/
def runOnce (cfg : SyncConfig) (db : Db) : Db × List (Int × Int) :=
  match runSync cfg db with
  | .error _ => (db, [])
  | .ok st => (st.db, st.fetchLog)

/-- Iterated runs of part_000. -/
def runMany (cfgs : List SyncConfig) (db : Db) : Db :=
  cfgs.foldl (fun d cfg => (runOnce cfg d).1) db

/-- Claim C1's invariant for part_000: pairwise distinct
(title_number, snapshot_date) keys. -/
def SnapUnique (db : Db) : Prop :=
  db.snapshots.Pairwise
    (fun a b => ¬(a.title_number = b.title_number ∧ a.snapshot_date = b.snapshot_date))

end Golden

/-- Three placeholder feed agencies occupying the slots discarded by
`slice(3, AGENCY_LIMIT + 3)` in src/sync.ts; only the fourth feed entry is
processed. -/
def padFeed : List SyncTs.AgencyFeed :=
  [{ slug := "pad1", name := "Pad One", short_name := none,
     cfr_references := [{ title := 90, chapter := "I" }] },
   { slug := "pad2", name := "Pad Two", short_name := none,
     cfr_references := [{ title := 91, chapter := "I" }] },
   { slug := "pad3", name := "Pad Three", short_name := none,
     cfr_references := [{ title := 92, chapter := "I" }] }]

/-- A feed whose only processed agency references title 1 once. -/
def oneRefFeed : List SyncTs.AgencyFeed :=
  padFeed ++ [{ slug := "acl", name := "Agency", short_name := none,
                cfr_references := [{ title := 1, chapter := "X" }] }]

/-- A feed whose only processed agency references title 1 through two
chapters — the shape the data model's many-to-many Reference relation
explicitly allows (a title shared by several references). -/
def twoRefFeed : List SyncTs.AgencyFeed :=
  padFeed ++ [{ slug := "acl", name := "Agency", short_name := none,
                cfr_references := [{ title := 1, chapter := "X" },
                                   { title := 1, chapter := "Y" }] }]

/-- A run configuration over `oneRefFeed` with a single snapshot date 5 and an
always-failing Fetcher. -/
def failCfg : SyncTs.SyncConfig :=
  { feed := some oneRefFeed, dates := [5], todaysDate := 0,
    getChecksum := fun _ => "cs", oracle := fun _ => .fail }

/-- A run configuration over `twoRefFeed` with an always-failing Fetcher. -/
def failCfgTwoRefs : SyncTs.SyncConfig :=
  { feed := some twoRefFeed, dates := [5], todaysDate := 0,
    getChecksum := fun _ => "cs", oracle := fun _ => .fail }

/-- A run configuration over `oneRefFeed` whose Fetcher always answers
HTTP 200 with an empty body. -/
def emptyBodyCfg : SyncTs.SyncConfig :=
  { feed := some oneRefFeed, dates := [5], todaysDate := 7,
    getChecksum := fun _ => "cs", oracle := fun _ => .ok "" }

/-- A run configuration over `oneRefFeed` whose Fetcher always succeeds with a
small XML body. -/
def okCfg : SyncTs.SyncConfig :=
  { feed := some oneRefFeed, dates := [5], todaysDate := 0,
    getChecksum := fun _ => "cs", oracle := fun _ => .ok "<a>hello</a>" }

/-- A run configuration whose directory feed is empty. -/
def emptyFeedCfg : SyncTs.SyncConfig :=
  { feed := some [], dates := [5], todaysDate := 0,
    getChecksum := fun _ => "cs", oracle := fun _ => .fail }

/-- A run configuration whose directory feed is unreachable. -/
def downFeedCfg : SyncTs.SyncConfig :=
  { feed := none, dates := [5], todaysDate := 0,
    getChecksum := fun _ => "cs", oracle := fun _ => .fail }

/-- A store already holding a snapshot for (title 1, date 5). -/
def preloadedDb : SyncTs.Db :=
  { agencies := [], agency_references := [],
    snapshots := [{ title := 1, snapshot_date := 5, word_count := 10, checksum := "c0" }] }

theorem daysFromCivil_20220101 : daysFromCivil 2022 1 1 = 18993 := by decide

theorem daysFromCivil_20230101 : daysFromCivil 2023 1 1 = 19358 := by decide

theorem daysFromCivil_20230701 : daysFromCivil 2023 7 1 = 19539 := by decide

theorem daysFromCivil_20241231 : daysFromCivil 2024 12 31 = 20088 := by decide

/-- Claim C8: for every agency history with fewer than two points (zero or
one), the calculator returns velocity 0 and the series as-is, without error. -/
theorem C8_insufficient_history (history : List HistPoint) (h : history.length < 2) :
    (getAgencyStats history).velocity = 0 ∧ (getAgencyStats history).history = history := by
  match history with
  | [] => exact ⟨rfl, rfl⟩
  | [p] => exact ⟨rfl, rfl⟩
  | a :: b :: t => simp only [List.length_cons] at h; omega

/-- Witness for C8 at a concrete single-point history. -/
theorem C8_witness :
    ([({ snapshot_date := 0, total_words := 42 } : HistPoint)].length < 2) ∧
    (getAgencyStats [{ snapshot_date := 0, total_words := 42 }]).velocity = 0 ∧
    (getAgencyStats [{ snapshot_date := 0, total_words := 42 }]).history =
      [{ snapshot_date := 0, total_words := 42 }] :=
  ⟨by decide, C8_insufficient_history _ (by decide)⟩

/-- Claim C10: for histories with at least two distinct dates (sorted newest
first, as the SQL produces them), the code's elapsed-years value — the ceiling
of the millisecond difference over a 365.25-day year — is an integer ≥ 1, so
the division defining the velocity never divides by zero and the guard branch
returning 0 for `years ≤ 0.01` is not taken. -/
theorem C10_elapsed_years_ceiling_positive (newest p : HistPoint) (ps : List HistPoint)
    (hsorted : (newest :: p :: ps).Pairwise (fun a b => b.snapshot_date < a.snapshot_date)) :
    1 ≤ elapsedYears newest ((p :: ps).getLast (List.cons_ne_nil p ps)) ∧
    (getAgencyStats (newest :: p :: ps)).velocity =
      jsRound ((newest.total_words - ((p :: ps).getLast (List.cons_ne_nil p ps)).total_words : ℤ) /
        ((elapsedYears newest ((p :: ps).getLast (List.cons_ne_nil p ps)) : ℤ) : ℚ)) := by
  have hmem : (p :: ps).getLast (List.cons_ne_nil p ps) ∈ p :: ps := List.getLast_mem _
  have hlt : ((p :: ps).getLast (List.cons_ne_nil p ps)).snapshot_date < newest.snapshot_date :=
    (List.pairwise_cons.mp hsorted).1 _ hmem
  have hnum : (0 : ℚ) <
      ((newest.snapshot_date - ((p :: ps).getLast (List.cons_ne_nil p ps)).snapshot_date : ℤ) : ℚ) := by
    have h0 : (0 : ℤ) < newest.snapshot_date - ((p :: ps).getLast (List.cons_ne_nil p ps)).snapshot_date := by
      omega
    exact_mod_cast h0
  have hpos : (0 : ℚ) <
      ((newest.snapshot_date - ((p :: ps).getLast (List.cons_ne_nil p ps)).snapshot_date : ℤ) : ℚ) *
        86400000 / msPerYear := by
    apply div_pos (by positivity)
    unfold msPerYear
    norm_num
  have hceil : 1 ≤ elapsedYears newest ((p :: ps).getLast (List.cons_ne_nil p ps)) := by
    unfold elapsedYears
    have := Int.ceil_pos.mpr hpos
    omega
  have hguard : (0.01 : ℚ) <
      ((elapsedYears newest ((p :: ps).getLast (List.cons_ne_nil p ps)) : ℤ) : ℚ) := by
    have h1 : (1 : ℚ) ≤ ((elapsedYears newest ((p :: ps).getLast (List.cons_ne_nil p ps)) : ℤ) : ℚ) := by
      exact_mod_cast hceil
    nlinarith
  refine ⟨hceil, ?_⟩
  simp only [getAgencyStats]
  rw [if_pos hguard]

/-- Witness for C10 at the spec's concrete two-point example. -/
theorem C10_witness :
    (({ snapshot_date := daysFromCivil 2023 1 1, total_words := 1100 } : HistPoint) ::
      ({ snapshot_date := daysFromCivil 2022 1 1, total_words := 1000 } : HistPoint) ::
      ([] : List HistPoint)).Pairwise (fun a b => b.snapshot_date < a.snapshot_date) ∧
    1 ≤ elapsedYears { snapshot_date := daysFromCivil 2023 1 1, total_words := 1100 }
      (([({ snapshot_date := daysFromCivil 2022 1 1, total_words := 1000 } : HistPoint)]).getLast
        (List.cons_ne_nil _ _)) :=
  ⟨by decide, (C10_elapsed_years_ceiling_positive _ _ _ (by decide)).1⟩

/-- Counterexample to claim C3 as stated: on the concrete history
2022-01-01: 1000 → 2023-07-01: 2000, the claimed fractional-years velocity is
`round(1000 / (546/365.25)) = 669`, but the code ceilings the elapsed years to
the integer 2 and returns `round(1000 / 2) = 500`. -/
theorem C3_counterexample_fractional_years :
    velocityClaimFractional stretchedHist = 669 ∧
    (getAgencyStats stretchedHist).velocity = 500 := by
  constructor
  · norm_num [stretchedHist, velocityClaimFractional, msPerYear, jsRound,
      daysFromCivil_20220101, daysFromCivil_20230701, List.getLast]
  · have hc : (⌈(728 / 487 : ℚ)⌉ : ℤ) = 2 := by rw [Int.ceil_eq_iff]; norm_num
    norm_num [stretchedHist, getAgencyStats, elapsedYears, msPerYear, jsRound,
      daysFromCivil_20220101, daysFromCivil_20230701, List.getLast, hc]

/-- Claim C3 as amended: the calculator computes elapsed years as the integer
ceiling of the millisecond difference over a 365.25-day year and returns
`round(diff / years)` when that integer exceeds 0.01, else 0; on the spec's
two-point example it returns exactly 100 (and the fractional reading also
rounds to 100 there, so the example itself holds under either reading). -/
theorem C3_velocity_with_ceiling_years :
    (∀ history : List HistPoint, (getAgencyStats history).velocity = velocityAmendedCeiling history) ∧
    (getAgencyStats twoPointHist).velocity = 100 ∧
    velocityClaimFractional twoPointHist = 100 := by
  refine ⟨?_, ?_, ?_⟩
  · intro history
    match history with
    | [] => rfl
    | [p] => rfl
    | a :: b :: t => rfl
  · have hc : (⌈(1460 / 1461 : ℚ)⌉ : ℤ) = 1 := by rw [Int.ceil_eq_iff]; norm_num
    norm_num [twoPointHist, getAgencyStats, elapsedYears, msPerYear, jsRound,
      daysFromCivil_20220101, daysFromCivil_20230101, List.getLast, hc]
  · norm_num [twoPointHist, velocityClaimFractional, msPerYear, jsRound,
      daysFromCivil_20220101, daysFromCivil_20230101, List.getLast]

/-- Counterexample to claim C4 as stated: `getAgencyStats` returns the record
`{ velocity, latest_count, history }` and nothing else — no trend direction.
On the strictly increasing history `creepHist` the spec's trend is
"increasing", yet the full output of the calculator is `⟨0, 1001, creepHist⟩`,
and every velocity-derived display signal of the dashboard (class and
sparkline colour) is neutral/green, i.e. not "increasing". -/
theorem C4_counterexample_no_trend :
    trendSpec 1001 1000 = "increasing" ∧
    getAgencyStats creepHist = { velocity := 0, latest_count := 1001, history := creepHist } ∧
    velClass (getAgencyStats creepHist).velocity = "vel-neutral" ∧
    sparkColor (getAgencyStats creepHist).velocity = "#00cc00" := by
  have hc : (⌈(1460 / 487 : ℚ)⌉ : ℤ) = 3 := by rw [Int.ceil_eq_iff]; norm_num
  have hv : getAgencyStats creepHist = { velocity := 0, latest_count := 1001, history := creepHist } := by
    norm_num [creepHist, getAgencyStats, elapsedYears, msPerYear, jsRound,
      daysFromCivil_20220101, daysFromCivil_20241231, List.getLast, hc]
  refine ⟨rfl, hv, ?_, ?_⟩ <;> (rw [hv]; decide)

/-- Claim C4 as amended: the calculator exposes no trend-direction value; it
returns the raw ordered series unchanged (so the sign of newest − oldest is
recoverable downstream only from the series itself, not from any trend
output). -/
theorem C4_series_passthrough :
    ∀ history : List HistPoint, (getAgencyStats history).history = history := by
  intro history
  match history with
  | [] => rfl
  | [p] => rfl
  | a :: b :: t => rfl

theorem foldl_preserve {α σ : Type _} (P : σ → Prop) (f : σ → α → σ)
    (h : ∀ s a, P s → P (f s a)) : ∀ (l : List α) (s : σ), P s → P (l.foldl f s)
  | [], _, hs => hs
  | a :: t, s, hs => foldl_preserve P f h t (f s a) (h s a hs)

theorem syncTs_snapExists_false {db : SyncTs.Db} {t d : Int}
    (h : SyncTs.snapExists db t d = false) :
    ∀ s ∈ db.snapshots, ¬(s.title = t ∧ s.snapshot_date = d) := by
  intro s hs hc
  have htrue : SyncTs.snapExists db t d = true := by
    simp only [SyncTs.snapExists, List.any_eq_true]
    exact ⟨s, hs, by simp [hc.1, hc.2]⟩
  rw [htrue] at h
  simp at h

theorem syncTs_snapUnique_insert {db : SyncTs.Db} {row : SyncTs.SnapshotRow}
    (h : SyncTs.SnapUnique db)
    (hne : SyncTs.snapExists db row.title row.snapshot_date = false) :
    SyncTs.SnapUnique (SyncTs.insertSnapshot db row) := by
  unfold SyncTs.SnapUnique SyncTs.insertSnapshot
  refine List.pairwise_append.mpr ⟨h, by simp, ?_⟩
  intro a ha b hb
  simp only [List.mem_singleton] at hb
  subst hb
  exact syncTs_snapExists_false hne a ha

theorem syncTs_updateAgencyLatest_snapshots (db : SyncTs.Db) (slug : String) (wc : Int)
    (cs : String) (today : Int) :
    (SyncTs.updateAgencyLatest db slug wc cs today).snapshots = db.snapshots := rfl

theorem syncTs_upsertAgency_snapshots (db : SyncTs.Db) (a : SyncTs.AgencyFeed) :
    (SyncTs.upsertAgency db a).snapshots = db.snapshots := by
  unfold SyncTs.upsertAgency
  split <;> rfl

theorem syncTs_insertRefOrIgnore_snapshots (db : SyncTs.Db) (slug : String) (t : Int)
    (ch : String) :
    (SyncTs.insertRefOrIgnore db slug t ch).snapshots = db.snapshots := rfl

theorem syncTs_attemptOnce_fail_eq (cfg : SyncTs.SyncConfig) (st : SyncTs.RunState)
    (slug : String) (t d : Int) (h : cfg.oracle st.fetchLog.length = .fail) :
    SyncTs.attemptOnce cfg st slug t d =
      ({ st with fetchLog := st.fetchLog ++ [(t, d)] }, false) := by
  simp [SyncTs.attemptOnce, h]

theorem syncTs_attemptOnce_ok (cfg : SyncTs.SyncConfig) (st : SyncTs.RunState)
    (slug : String) (t d : Int) (xml : String)
    (h : cfg.oracle st.fetchLog.length = .ok xml) :
    (SyncTs.attemptOnce cfg st slug t d).2 = true ∧
    ∃ wc cs, (SyncTs.attemptOnce cfg st slug t d).1.db.snapshots =
      st.db.snapshots ++
        [{ title := t, snapshot_date := d, word_count := wc, checksum := cs }] := by
  refine ⟨by simp [SyncTs.attemptOnce, h], ?_⟩
  refine ⟨((SyncTs.jsSplitSpace (SyncTs.cleanText xml).data).length : Int),
    cfg.getChecksum (SyncTs.cleanText xml), ?_⟩
  simp only [SyncTs.attemptOnce, h]
  split <;> simp [SyncTs.insertSnapshot, SyncTs.updateAgencyLatest]

theorem syncTs_retryLoop_snapUnique (cfg : SyncTs.SyncConfig) (slug : String) (t d : Int) :
    ∀ (fuel : Nat) (st : SyncTs.RunState), SyncTs.SnapUnique st.db →
      SyncTs.snapExists st.db t d = false →
      SyncTs.SnapUnique (SyncTs.retryLoop cfg slug t d fuel st).db := by
  intro fuel
  induction fuel with
  | zero => intro st h _; exact h
  | succ n ih =>
      intro st h hne
      unfold SyncTs.retryLoop
      cases ho : cfg.oracle st.fetchLog.length with
      | fail =>
          rw [syncTs_attemptOnce_fail_eq cfg st slug t d ho]
          simp only [Bool.false_eq_true, if_false]
          exact ih _ h hne
      | ok xml =>
          obtain ⟨h2, wc, cs, hsnap⟩ := syncTs_attemptOnce_ok cfg st slug t d xml ho
          simp only [h2, if_true]
          have hins := @syncTs_snapUnique_insert st.db
            { title := t, snapshot_date := d, word_count := wc, checksum := cs } h hne
          unfold SyncTs.SnapUnique at hins ⊢
          rw [hsnap]
          simpa [SyncTs.insertSnapshot] using hins

theorem syncTs_processDate_snapUnique (cfg : SyncTs.SyncConfig) (slug : String)
    (t d : Int) (st : SyncTs.RunState) (h : SyncTs.SnapUnique st.db) :
    SyncTs.SnapUnique (SyncTs.processDate cfg st slug t d).db := by
  by_cases h1 : (t, d) ∈ st.processedSnapshots
  · simpa [SyncTs.processDate, h1] using h
  · by_cases h2 : SyncTs.snapExists st.db t d = true
    · simpa [SyncTs.processDate, h1, h2] using h
    · have h2f : SyncTs.snapExists st.db t d = false := by
        cases hb : SyncTs.snapExists st.db t d
        · rfl
        · exact absurd hb h2
      simp only [SyncTs.processDate, h1, if_false, h2f, Bool.false_eq_true]
      exact syncTs_retryLoop_snapUnique cfg slug t d 3 st h h2f

theorem syncTs_processRef_snapUnique (cfg : SyncTs.SyncConfig) (slug : String)
    (r : SyncTs.CfrRef) (st : SyncTs.RunState) (h : SyncTs.SnapUnique st.db) :
    SyncTs.SnapUnique (SyncTs.processRef cfg st slug r).db := by
  unfold SyncTs.processRef
  refine foldl_preserve (fun (s : SyncTs.RunState) => SyncTs.SnapUnique s.db) _ ?_ _ _ ?_
  · intro s date hs
    exact syncTs_processDate_snapUnique cfg slug r.title date s hs
  · show SyncTs.SnapUnique (SyncTs.insertRefOrIgnore st.db slug r.title r.chapter)
    unfold SyncTs.SnapUnique
    rw [syncTs_insertRefOrIgnore_snapshots]
    exact h

theorem syncTs_processAgency_snapUnique (cfg : SyncTs.SyncConfig) (a : SyncTs.AgencyFeed)
    (st : SyncTs.RunState) (h : SyncTs.SnapUnique st.db) :
    SyncTs.SnapUnique (SyncTs.processAgency cfg st a).db := by
  unfold SyncTs.processAgency
  refine foldl_preserve (fun (s : SyncTs.RunState) => SyncTs.SnapUnique s.db) _ ?_ _ _ ?_
  · intro s r hs
    exact syncTs_processRef_snapUnique cfg a.slug r s hs
  · show SyncTs.SnapUnique (SyncTs.upsertAgency st.db a)
    unfold SyncTs.SnapUnique
    rw [syncTs_upsertAgency_snapshots]
    exact h

theorem syncTs_runOnce_snapUnique (cfg : SyncTs.SyncConfig) (db : SyncTs.Db)
    (h : SyncTs.SnapUnique db) : SyncTs.SnapUnique (SyncTs.runOnce cfg db).1 := by
  unfold SyncTs.runOnce SyncTs.runSync
  cases cfg.feed with
  | none => exact h
  | some feedAgencies =>
      exact foldl_preserve (fun (s : SyncTs.RunState) => SyncTs.SnapUnique s.db)
        (fun s a => SyncTs.processAgency cfg s a)
        (fun s a hs => syncTs_processAgency_snapUnique cfg a s hs) _ _ h

theorem golden_snapExists_false {db : Golden.Db} {t d : Int}
    (h : Golden.snapExists db t d = false) :
    ∀ s ∈ db.snapshots, ¬(s.title_number = t ∧ s.snapshot_date = d) := by
  intro s hs hc
  have htrue : Golden.snapExists db t d = true := by
    simp only [Golden.snapExists, List.any_eq_true]
    exact ⟨s, hs, by simp [hc.1, hc.2]⟩
  rw [htrue] at h
  simp at h

theorem golden_insertSnapshot_snapUnique {db : Golden.Db} {row : Golden.SnapshotRow}
    (h : Golden.SnapUnique db) : Golden.SnapUnique (Golden.insertSnapshot db row) := by
  unfold Golden.insertSnapshot
  split
  · exact h
  · next hex =>
      have hf : Golden.snapExists db row.title_number row.snapshot_date = false := by
        cases hb : Golden.snapExists db row.title_number row.snapshot_date
        · rfl
        · exact absurd hb hex
      unfold Golden.SnapUnique
      refine List.pairwise_append.mpr ⟨h, by simp, ?_⟩
      intro a ha b hb
      simp only [List.mem_singleton] at hb
      subst hb
      exact golden_snapExists_false hf a ha

theorem golden_processDate_snapUnique (cfg : Golden.SyncConfig) (t d : Int)
    (st : Golden.RunState) (h : Golden.SnapUnique st.db) :
    Golden.SnapUnique (Golden.processDate cfg st t d).db := by
  unfold Golden.processDate
  by_cases h1 : (t, d) ∈ st.checked
  · simpa [h1] using h
  · by_cases h2 : Golden.snapExists st.db t d = true
    · simpa [h1, h2] using h
    · have h2f : Golden.snapExists st.db t d = false := by
        cases hb : Golden.snapExists st.db t d
        · rfl
        · exact absurd hb h2
      simp only [h1, if_false, h2f, Bool.false_eq_true]
      cases ho : cfg.oracle st.fetchLog.length with
      | netError => simpa [ho] using h
      | notOk => simpa [ho] using h
      | emptyBody => simpa [ho] using h
      | malformed => simpa [ho] using h
      | payload size =>
          simp only [ho]
          split
          · exact golden_insertSnapshot_snapUnique h
          · exact h

theorem golden_processRef_snapUnique (cfg : Golden.SyncConfig) (slug : String)
    (r : SyncTs.CfrRef) (st : Golden.RunState) (h : Golden.SnapUnique st.db) :
    Golden.SnapUnique (Golden.processRef cfg st slug r).db := by
  unfold Golden.processRef
  refine foldl_preserve (fun (s : Golden.RunState) => Golden.SnapUnique s.db) _ ?_ _ _ ?_
  · intro s date hs
    exact golden_processDate_snapUnique cfg r.title date s hs
  · show Golden.SnapUnique (Golden.insertRefOrIgnore st.db slug r.title r.chapter)
    unfold Golden.SnapUnique Golden.insertRefOrIgnore
    split <;> exact h

theorem golden_processAgency_snapUnique (cfg : Golden.SyncConfig) (a : SyncTs.AgencyFeed)
    (st : Golden.RunState) (h : Golden.SnapUnique st.db) :
    Golden.SnapUnique (Golden.processAgency cfg st a).db := by
  unfold Golden.processAgency
  refine foldl_preserve (fun (s : Golden.RunState) => Golden.SnapUnique s.db) _ ?_ _ _ ?_
  · intro s r hs
    exact golden_processRef_snapUnique cfg a.slug r s hs
  · show Golden.SnapUnique (Golden.upsertAgency st.db a cfg.dates.headI)
    unfold Golden.SnapUnique Golden.upsertAgency
    split <;> exact h

theorem golden_runOnce_snapUnique (cfg : Golden.SyncConfig) (db : Golden.Db)
    (h : Golden.SnapUnique db) : Golden.SnapUnique (Golden.runOnce cfg db).1 := by
  unfold Golden.runOnce Golden.runSync
  cases cfg.feed with
  | none => exact h
  | some feedAgencies =>
      exact foldl_preserve (fun (s : Golden.RunState) => Golden.SnapUnique s.db)
        (fun s a => Golden.processAgency cfg s a)
        (fun s a hs => golden_processAgency_snapUnique cfg a s hs) _ _ h

/-- Claim C1: for every title number and snapshot date, at most one stored
Snapshot row has that key, in every store reachable by running the sync any
number of times from an empty store — for the src/sync.ts orchestrator (whose
schema has no uniqueness constraint: the invariant is maintained purely by the
two-tier dedup checks guarding every insert) and for the src/unnamed/part_000
orchestrator (where the UNIQUE(title_number, snapshot_date) constraint also
enforces it). -/
theorem C1_snapshot_uniqueness :
    (∀ cfgs : List SyncTs.SyncConfig,
      SyncTs.SnapUnique (SyncTs.runMany cfgs SyncTs.emptyDb)) ∧
    (∀ cfgs : List Golden.SyncConfig,
      Golden.SnapUnique (Golden.runMany cfgs Golden.emptyDb)) := by
  constructor
  · intro cfgs
    exact foldl_preserve SyncTs.SnapUnique _
      (fun d cfg hd => syncTs_runOnce_snapUnique cfg d hd) cfgs SyncTs.emptyDb List.Pairwise.nil
  · intro cfgs
    exact foldl_preserve Golden.SnapUnique _
      (fun d cfg hd => golden_runOnce_snapUnique cfg d hd) cfgs Golden.emptyDb List.Pairwise.nil

theorem syncTs_snapExists_mono {db : SyncTs.Db} {row : SyncTs.SnapshotRow} {t d : Int}
    (h : SyncTs.snapExists db t d = true) :
    SyncTs.snapExists (SyncTs.insertSnapshot db row) t d = true := by
  simp only [SyncTs.snapExists, SyncTs.insertSnapshot, List.any_append] at h ⊢
  simp [h]

theorem syncTs_attemptOnce_keep (cfg : SyncTs.SyncConfig) (st : SyncTs.RunState)
    (slug : String) (t' d' t d : Int) (hne : (t', d') ≠ (t, d))
    (h1 : SyncTs.snapExists st.db t d = true) (h2 : (t, d) ∉ st.fetchLog) :
    SyncTs.snapExists (SyncTs.attemptOnce cfg st slug t' d').1.db t d = true ∧
    (t, d) ∉ (SyncTs.attemptOnce cfg st slug t' d').1.fetchLog := by
  have hmem : (t, d) ∉ st.fetchLog ++ [(t', d')] := by
    simp only [List.mem_append, List.mem_singleton]
    rintro (hc | hc)
    · exact h2 hc
    · exact hne (hc.symm)
  unfold SyncTs.attemptOnce
  cases ho : cfg.oracle st.fetchLog.length with
  | fail => exact ⟨h1, hmem⟩
  | ok xml =>
      constructor
      · show SyncTs.snapExists
          (if cfg.dates.head? = some d' then SyncTs.updateAgencyLatest _ _ _ _ _ else _) t d = true
        split
        · show SyncTs.snapExists (SyncTs.updateAgencyLatest (SyncTs.insertSnapshot _ _) _ _ _ _) t d = true
          have : ∀ (db2 : SyncTs.Db) (s : String) (w : Int) (c : String) (td : Int),
              SyncTs.snapExists (SyncTs.updateAgencyLatest db2 s w c td) t d =
                SyncTs.snapExists db2 t d := by
            intro db2 s w c td
            rfl
          rw [this]
          exact syncTs_snapExists_mono h1
        · exact syncTs_snapExists_mono h1
      · exact hmem

theorem syncTs_retryLoop_keep (cfg : SyncTs.SyncConfig) (slug : String) (t' d' t d : Int)
    (hne : (t', d') ≠ (t, d)) :
    ∀ (fuel : Nat) (st : SyncTs.RunState),
      SyncTs.snapExists st.db t d = true → (t, d) ∉ st.fetchLog →
      SyncTs.snapExists (SyncTs.retryLoop cfg slug t' d' fuel st).db t d = true ∧
      (t, d) ∉ (SyncTs.retryLoop cfg slug t' d' fuel st).fetchLog := by
  intro fuel
  induction fuel with
  | zero => intro st h1 h2; exact ⟨h1, h2⟩
  | succ n ih =>
      intro st h1 h2
      obtain ⟨k1, k2⟩ := syncTs_attemptOnce_keep cfg st slug t' d' t d hne h1 h2
      cases hb : (SyncTs.attemptOnce cfg st slug t' d').2 with
      | true =>
          rw [show SyncTs.retryLoop cfg slug t' d' (n + 1) st =
            (SyncTs.attemptOnce cfg st slug t' d').1 from by simp [SyncTs.retryLoop, hb]]
          exact ⟨k1, k2⟩
      | false =>
          rw [show SyncTs.retryLoop cfg slug t' d' (n + 1) st =
            SyncTs.retryLoop cfg slug t' d' n (SyncTs.attemptOnce cfg st slug t' d').1 from by
              simp [SyncTs.retryLoop, hb]]
          exact ih _ k1 k2

theorem syncTs_processDate_keep (cfg : SyncTs.SyncConfig) (slug : String) (t' d' t d : Int)
    (st : SyncTs.RunState)
    (h1 : SyncTs.snapExists st.db t d = true) (h2 : (t, d) ∉ st.fetchLog) :
    SyncTs.snapExists (SyncTs.processDate cfg st slug t' d').db t d = true ∧
    (t, d) ∉ (SyncTs.processDate cfg st slug t' d').fetchLog := by
  unfold SyncTs.processDate
  by_cases hm : (t', d') ∈ st.processedSnapshots
  · simpa [hm] using ⟨h1, h2⟩
  · by_cases hx : SyncTs.snapExists st.db t' d' = true
    · simpa [hm, hx] using ⟨h1, h2⟩
    · have hxf : SyncTs.snapExists st.db t' d' = false := by
        cases hb : SyncTs.snapExists st.db t' d'
        · rfl
        · exact absurd hb hx
      have hne : (t', d') ≠ (t, d) := by
        intro hc
        simp only [Prod.mk.injEq] at hc
        obtain ⟨rfl, rfl⟩ := hc
        rw [h1] at hxf
        simp at hxf
      simp only [hm, if_false, hxf, Bool.false_eq_true]
      exact syncTs_retryLoop_keep cfg slug t' d' t d hne 3 st h1 h2

theorem syncTs_processRef_keep (cfg : SyncTs.SyncConfig) (slug : String) (r : SyncTs.CfrRef)
    (t d : Int) (st : SyncTs.RunState)
    (h1 : SyncTs.snapExists st.db t d = true) (h2 : (t, d) ∉ st.fetchLog) :
    SyncTs.snapExists (SyncTs.processRef cfg st slug r).db t d = true ∧
    (t, d) ∉ (SyncTs.processRef cfg st slug r).fetchLog := by
  unfold SyncTs.processRef
  refine foldl_preserve
    (fun (s : SyncTs.RunState) =>
      SyncTs.snapExists s.db t d = true ∧ (t, d) ∉ s.fetchLog) _ ?_ _ _ ?_
  · intro s date hs
    exact syncTs_processDate_keep cfg slug r.title date t d s hs.1 hs.2
  · constructor
    · show SyncTs.snapExists (SyncTs.insertRefOrIgnore st.db slug r.title r.chapter) t d = true
      unfold SyncTs.snapExists at h1 ⊢
      rw [syncTs_insertRefOrIgnore_snapshots]
      exact h1
    · exact h2

theorem syncTs_processAgency_keep (cfg : SyncTs.SyncConfig) (a : SyncTs.AgencyFeed)
    (t d : Int) (st : SyncTs.RunState)
    (h1 : SyncTs.snapExists st.db t d = true) (h2 : (t, d) ∉ st.fetchLog) :
    SyncTs.snapExists (SyncTs.processAgency cfg st a).db t d = true ∧
    (t, d) ∉ (SyncTs.processAgency cfg st a).fetchLog := by
  unfold SyncTs.processAgency
  refine foldl_preserve
    (fun (s : SyncTs.RunState) =>
      SyncTs.snapExists s.db t d = true ∧ (t, d) ∉ s.fetchLog) _ ?_ _ _ ?_
  · intro s r hs
    exact syncTs_processRef_keep cfg a.slug r t d s hs.1 hs.2
  · constructor
    · show SyncTs.snapExists (SyncTs.upsertAgency st.db a) t d = true
      unfold SyncTs.snapExists at h1 ⊢
      rw [syncTs_upsertAgency_snapshots]
      exact h1
    · exact h2

/-- Claim C6: for every (title, date) pair that already has a Snapshot row in
storage at the start of a run of src/sync.ts, the Fetcher is never invoked for
that pair during that run — the memory set and then the persistent existence
check are consulted before any fetch, and the second one hits. -/
theorem C6_stored_pair_never_fetched (cfg : SyncTs.SyncConfig) (db : SyncTs.Db)
    (t d : Int) (h : SyncTs.snapExists db t d = true) :
    (t, d) ∉ (SyncTs.runOnce cfg db).2 := by
  unfold SyncTs.runOnce SyncTs.runSync
  cases cfg.feed with
  | none => simp
  | some feedAgencies =>
      have := foldl_preserve
        (fun (s : SyncTs.RunState) =>
          SyncTs.snapExists s.db t d = true ∧ (t, d) ∉ s.fetchLog)
        (fun s a => SyncTs.processAgency cfg s a)
        (fun s a hs => syncTs_processAgency_keep cfg a t d s hs.1 hs.2)
        (((feedAgencies.filter (fun a => !a.cfr_references.isEmpty)).drop 3).take
          SyncTs.AGENCY_LIMIT)
        { db := db, processedSnapshots := [], fetchLog := [] }
        ⟨h, by simp⟩
      exact this.2

theorem syncTs_retryLoop_allFail (cfg : SyncTs.SyncConfig) (slug : String) (t d : Int)
    (horacle : ∀ n, cfg.oracle n = SyncTs.FetchOutcome.fail) :
    ∀ (fuel : Nat) (st : SyncTs.RunState),
      SyncTs.retryLoop cfg slug t d fuel st =
        { st with fetchLog := st.fetchLog ++ List.replicate fuel (t, d) } := by
  intro fuel
  induction fuel with
  | zero =>
      intro st
      simp [SyncTs.retryLoop]
  | succ n ih =>
      intro st
      rw [show SyncTs.retryLoop cfg slug t d (n + 1) st =
          SyncTs.retryLoop cfg slug t d n { st with fetchLog := st.fetchLog ++ [(t, d)] } from by
        simp [SyncTs.retryLoop, syncTs_attemptOnce_fail_eq cfg st slug t d (horacle _)]]
      rw [ih]
      simp [List.replicate_succ]

/-- Claim C5 as amended: every time an unresolved (title, date) pair whose
fetches always fail is reached through a reference-date iteration, the Fetcher
is invoked exactly 3 times (the retry ceiling) and the state is otherwise
untouched: the pair is not marked in the in-run memory set, nothing is
persisted, so both a later reference to the same title in the same run and any
future run retry it. -/
theorem C5_retry_exhaustion_per_encounter (cfg : SyncTs.SyncConfig)
    (st : SyncTs.RunState) (slug : String) (t d : Int)
    (horacle : ∀ n, cfg.oracle n = SyncTs.FetchOutcome.fail)
    (hmem : (t, d) ∉ st.processedSnapshots)
    (hex : SyncTs.snapExists st.db t d = false) :
    SyncTs.processDate cfg st slug t d =
      { st with fetchLog := st.fetchLog ++ [(t, d), (t, d), (t, d)] } := by
  unfold SyncTs.processDate
  rw [if_neg hmem, if_neg (by simp [hex])]
  rw [syncTs_retryLoop_allFail cfg slug t d horacle 3 st]
  rfl

/-- Witness for C5's amended theorem at a concrete fresh pair. -/
theorem C5_witness :
    (∀ n, failCfg.oracle n = SyncTs.FetchOutcome.fail) ∧
    ((1, 5) ∉ ({ db := SyncTs.emptyDb, processedSnapshots := [], fetchLog := [] } :
      SyncTs.RunState).processedSnapshots) ∧
    SyncTs.snapExists SyncTs.emptyDb 1 5 = false ∧
    SyncTs.processDate failCfg
        { db := SyncTs.emptyDb, processedSnapshots := [], fetchLog := [] } "acl" 1 5 =
      { db := SyncTs.emptyDb, processedSnapshots := [],
        fetchLog := [(1, 5), (1, 5), (1, 5)] } :=
  ⟨fun _ => rfl, by simp, rfl,
    C5_retry_exhaustion_per_encounter failCfg
      { db := SyncTs.emptyDb, processedSnapshots := [], fetchLog := [] } "acl" 1 5
      (fun _ => rfl) (by simp) rfl⟩

/-- Counterexample to claim C5 as stated: with two references sharing title 1
(two chapters) and an always-failing Fetcher, one run invokes the Fetcher for
the pair (1, 5) six times, not exactly 3 — after the retry ceiling the pair is
only abandoned by the current reference-date iteration, not skipped for the
rest of the run, because failure marks nothing. -/
theorem C5_counterexample_six_invocations :
    (SyncTs.runOnce failCfgTwoRefs SyncTs.emptyDb).2 =
      [(1, 5), (1, 5), (1, 5), (1, 5), (1, 5), (1, 5)] := by decide

/-- Witness for C6 at a concrete preloaded store: the pair (1, 5) is stored,
and a run over a feed referencing title 1 with a succeeding Fetcher never
fetches it. -/
theorem C6_witness :
    SyncTs.snapExists preloadedDb 1 5 = true ∧
    (1, 5) ∉ (SyncTs.runOnce okCfg preloadedDb).2 :=
  ⟨by decide, C6_stored_pair_never_fetched okCfg preloadedDb 1 5 (by decide)⟩

/-- Claim C2, evaluated at its failing input: two identical runs of the
src/sync.ts orchestrator over an unchanged feed.  Agency and snapshot row
counts are stable, but `INSERT OR IGNORE INTO agency_references` has no
uniqueness constraint to fire on (the table only has an autoincrement id), so
the second run duplicates the Reference row. -/
theorem C2_duplicate_references_on_second_run :
    (SyncTs.runOnce okCfg SyncTs.emptyDb).1.agency_references =
      [{ agency_slug := "acl", title_number := 1, chapter := "X" }] ∧
    (SyncTs.runOnce okCfg (SyncTs.runOnce okCfg SyncTs.emptyDb).1).1.agency_references =
      [{ agency_slug := "acl", title_number := 1, chapter := "X" },
       { agency_slug := "acl", title_number := 1, chapter := "X" }] ∧
    (SyncTs.runOnce okCfg SyncTs.emptyDb).1.agencies.length = 1 ∧
    (SyncTs.runOnce okCfg (SyncTs.runOnce okCfg SyncTs.emptyDb).1).1.agencies.length = 1 ∧
    (SyncTs.runOnce okCfg (SyncTs.runOnce okCfg SyncTs.emptyDb).1).1.snapshots.length = 1 ∧
    (SyncTs.runOnce okCfg SyncTs.emptyDb).1.snapshots.length = 1 := by decide

/-- Claim C7, evaluated at its failing input: for an HTTP 200 response with an
empty body, `cleanText` yields the empty string, but
`"".split(" ").length` is 1, not 0, and src/sync.ts persists the snapshot row
with `word_count = 1` instead of skipping it. -/
theorem C7_empty_body_persisted :
    SyncTs.cleanText "" = "" ∧
    (SyncTs.jsSplitSpace (SyncTs.cleanText "").data).length = 1 ∧
    (SyncTs.runOnce emptyBodyCfg SyncTs.emptyDb).1.snapshots =
      [{ title := 1, snapshot_date := 5, word_count := 1, checksum := "cs" }] := by
  refine ⟨by decide, by decide, by decide⟩

/-- Counterexample to claim C9 as stated: an empty directory feed is not
detected — the run of src/sync.ts completes normally as a successful run
(final log line included), with nothing synchronized and nothing reported. -/
theorem C9_counterexample_empty_feed_silent :
    SyncTs.runSync emptyFeedCfg SyncTs.emptyDb =
      Except.ok { db := SyncTs.emptyDb, processedSnapshots := [], fetchLog := [] } := rfl

/-- Claim C9 as amended: an unreachable (or unparseable) directory feed makes
the run die on an uncaught rejection before anything is written or fetched;
an empty feed is not treated as fatal — the run completes silently as a
successful run with nothing synchronized. -/
theorem C9_feed_absence_behavior :
    ∀ (dates : List Int) (today : Int) (cs : String → String)
      (oracle : Nat → SyncTs.FetchOutcome) (db : SyncTs.Db),
      SyncTs.runSync ⟨none, dates, today, cs, oracle⟩ db = Except.error () ∧
      SyncTs.runSync ⟨some [], dates, today, cs, oracle⟩ db =
        Except.ok { db := db, processedSnapshots := [], fetchLog := [] } := by
  intro dates today cs oracle db
  exact ⟨rfl, rfl⟩
